import Mathlib

/-!
Shallow embedding of the Web-Novel-Downloader core (src/book_downloader):
string utilities (utils.py), metadata persistence (metadata.py) and the
download and pagination orchestration (core.py), with theorems settling
the specification claims.  External capabilities (the headless browser
fetch, lxml XPath queries, the Python re and hashlib libraries and the
urljoin resolver) are modelled as explicit function parameters or, where
a claim is about one concrete pattern, as concrete executable models.
-/

namespace NovelDL

/-- ASCII lower-casing of one character, modelling Python str.lower on the
ASCII range (the keyword checks we embed only involve ASCII letters;
other characters are unchanged). -/
def lowerChar (c : Char) : Char :=
  if 'A' ≤ c ∧ c ≤ 'Z' then Char.ofNat (c.toNat + 32) else c

/-- Python str.lower, character by character. -/
def lowerStr (s : String) : String := String.mk (s.toList.map lowerChar)

/-- ASCII upper-casing of one character, modelling Python str.upper. -/
def upperChar (c : Char) : Char :=
  if 'a' ≤ c ∧ c ≤ 'z' then Char.ofNat (c.toNat - 32) else c

/-- Substring test on character lists: true iff pat occurs contiguously
inside s.  Models the Python expression pat in s on strings. -/
def containsSub (pat : List Char) : List Char → Bool
  | [] => pat.isEmpty
  | c :: rest => pat.isPrefixOf (c :: rest) || containsSub pat rest

/-- Python membership test needle in hay on strings. -/
def pyIn (needle hay : String) : Bool := containsSub needle.toList hay.toList

/-- Common ASCII whitespace, the characters Python str.strip removes in
every string this development evaluates. -/
def isSpaceCh (c : Char) : Bool := c = ' ' || c = '\t' || c = '\n' || c = '\r'

/-- Python str.strip restricted to ASCII whitespace. -/
def pyStrip (s : String) : String :=
  String.mk (((s.toList.dropWhile isSpaceCh).reverse.dropWhile isSpaceCh).reverse)

/-- utils.sanitize_filename (utils.py lines 125-135): every character of
the unsafe class is replaced by an underscore. -/
def sanitize_filename (s : String) : String :=
  String.mk (s.toList.map (fun c =>
    if c ∈ ['<', '>', ':', '"', '/', '\\', '|', '?', '*'] then '_' else c))

/-- ASCII digit test. -/
def isDigitCh (c : Char) : Bool := '0' ≤ c && c ≤ '9'

/-- One attempted match of the pattern Chapter \d+ at the head of l: the
literal Chapter followed by a space and then a maximal nonempty digit
run. -/
def matchChapterAt (l : List Char) : Option (List Char) :=
  if ("Chapter ".toList).isPrefixOf l then
    let ds := (l.drop 8).takeWhile isDigitCh
    if ds.isEmpty then none else some ("Chapter ".toList ++ ds)
  else none

/-- All matches of the pattern Chapter \d+ in left-to-right order.  This
models Python re.findall for that one concrete pattern (the re engine is
an external library): scanning at every position coincides with the
findall scan that resumes after each match, because no character after
the head of a match can start the literal Chapter again (the tail of a
match consists of hapter, a space and digits, none of which is a capital
C). -/
def findallChapterAux : List Char → List (List Char)
  | [] => []
  | c :: rest =>
    match matchChapterAt (c :: rest) with
    | some m => m :: findallChapterAux rest
    | none => findallChapterAux rest

/-- String-level wrapper of the findall model for the pattern Chapter \d+. -/
def findallChapter (s : String) : List String :=
  (findallChapterAux s.toList).map String.mk

/-- utils.process_content_with_regex (utils.py lines 61-101) for a
groupless pattern, parameterised by the findall semantics of the
configured pattern (the Python re engine is external).  A missing or
empty pattern returns the content unchanged; a pattern with no matches
yields the empty string; otherwise the stripped nonempty matches are
joined with newlines.  The tuple branch of the source applies only to
patterns with several capture groups, which the embedded pattern does not
have. -/
def process_content_with_regex (findall : String → List String)
    (content_regex : Option String) (content : String) : String :=
  match content_regex with
  | none => content
  | some r =>
    if r = "" then content
    else
      let ms := findall content
      if ms.isEmpty then ""
      else String.intercalate "\n" ((ms.map pyStrip).filter (fun m => m ≠ ""))

/-- Python str.replace on character lists: all non-overlapping
occurrences, left to right.  The fuel starts at the length of the string
and every step consumes at least one character, so it is never
exhausted. -/
def replaceAux (pat rep : List Char) : Nat → List Char → List Char
  | _, [] => []
  | 0, s => s
  | fuel + 1, c :: rest =>
    if pat.isPrefixOf (c :: rest) then
      rep ++ replaceAux pat rep fuel ((c :: rest).drop pat.length)
    else
      c :: replaceAux pat rep fuel rest

/-- Python str.replace (an external builtin); the empty pattern, which
Python treats specially, never reaches it through the source guard. -/
def pyReplace (s old new : String) : String :=
  if old = "" then s
  else String.mk (replaceAux old.toList new.toList s.toList.length s.toList)

/-- utils.apply_string_replacements (utils.py lines 104-122): the ordered
pairs are applied first to last; each replacement is performed only when
the old string occurs in the current content. -/
def apply_string_replacements (string_replacements : List (String × String))
    (content : String) : String :=
  string_replacements.foldl
    (fun acc p => if pyIn p.1 acc then pyReplace acc p.1 p.2 else acc) content

/-- NovelDownloader._process_content (core.py lines 59-79): the regex
filter is applied first when a pattern is configured, the ordered string
replacements second. -/
def processContent (content_regex : Option String) (findall : String → List String)
    (string_replacements : List (String × String)) (content : String) : String :=
  let c1 :=
    match content_regex with
    | some r =>
      if r ≠ "" then process_content_with_regex findall (some r) content else content
    | none => content
  if string_replacements.isEmpty then c1
  else apply_string_replacements string_replacements c1

/-! ## Metadata store (metadata.py)

The persisted JSON file is modelled by a small JSON value type; the
metadata directory is an association list from file names to file states.
json.load and json.dump are external, but their effect here is only
carrying the value: a file state records whether the file is missing,
present but not parseable (json.load would raise JSONDecodeError), or
present with a parsed JSON value.  Python expressions that can raise an
uncaught exception are embedded in an Except monad whose error carries
the exception name. -/

/-- A parsed JSON value, as json.load returns it. -/
inductive Json where
  | null : Json
  | str : String → Json
  | num : Int → Json
  | arr : List Json → Json
  | obj : List (String × Json) → Json

/-- Python dict.get on an object field list (first binding wins, as keys
of a Python dict are unique). -/
def objGet (fields : List (String × Json)) (k : String) : Option Json :=
  (fields.find? (fun p => p.1 = k)).map (fun p => p.2)

/-- State of one file of the metadata directory: absent, present but
rejected by json.load, or present with a parsed value. -/
inductive FileState where
  | missing : FileState
  | invalid : FileState
  | content : Json → FileState

/-- The metadata directory: newest binding first, so overwriting a file
prepends its new state. -/
def Store := List (String × FileState)

/-- Reading a file name from the directory. -/
def lookupFile (store : Store) (name : String) : FileState :=
  (((store : List (String × FileState)).find? (fun p => p.1 = name)).map
    (fun p => p.2)).getD FileState.missing

/-- MetadataManager._generate_metadata_filename (metadata.py lines 22-26).
urlHash models hashlib.md5(url).hexdigest() truncated to eight characters
(hashlib is an external library); every theorem below holds for an
arbitrary such function. -/
def generateMetadataFilename (urlHash : String → String) (menu_url : String) : String :=
  "chapters_" ++ urlHash menu_url ++ ".json"

/-- The JSON record of one chapter, as built by save_chapter_metadata. -/
def chapterJson (i : Nat) (c : String × String) : Json :=
  Json.obj [("index", Json.num (i + 1)), ("url", Json.str c.1), ("title", Json.str c.2)]

/-- The JSON record save_chapter_metadata builds (metadata.py lines
74-88); datetime.now is an external input passed as ts. -/
def savedMetadataJson (menu_url : String) (chapters : List (String × String))
    (chapter_xpath content_xpath : String)
    (chapter_pagination_xpath chapter_list_pagination_xpath content_regex : Option String)
    (string_replacements : List (String × String)) (ts : String) : Json :=
  Json.obj
    [("menu_url", Json.str menu_url),
     ("timestamp", Json.str ts),
     ("chapter_xpath", Json.str chapter_xpath),
     ("content_xpath", Json.str content_xpath),
     ("chapter_pagination_xpath", (chapter_pagination_xpath.map Json.str).getD Json.null),
     ("chapter_list_pagination_xpath", (chapter_list_pagination_xpath.map Json.str).getD Json.null),
     ("content_regex", (content_regex.map Json.str).getD Json.null),
     ("string_replacements",
       Json.arr (string_replacements.map (fun p => Json.arr [Json.str p.1, Json.str p.2]))),
     ("chapter_count", Json.num chapters.length),
     ("chapters", Json.arr (chapters.enum.map (fun p => chapterJson p.1 p.2)))]

/-- MetadataManager.save_chapter_metadata (metadata.py lines 52-97): the
whole record is rebuilt and the file overwritten.  Returns the file name
and the new directory state. -/
def save_chapter_metadata (urlHash : String → String) (store : Store)
    (menu_url : String) (chapters : List (String × String))
    (chapter_xpath content_xpath : String)
    (chapter_pagination_xpath chapter_list_pagination_xpath content_regex : Option String)
    (string_replacements : List (String × String)) (ts : String) : String × Store :=
  let filename := generateMetadataFilename urlHash menu_url
  (filename,
   (filename, FileState.content (savedMetadataJson menu_url chapters chapter_xpath
      content_xpath chapter_pagination_xpath chapter_list_pagination_xpath content_regex
      string_replacements ts)) :: store)

/-- MetadataManager.load_chapter_metadata (metadata.py lines 99-130).  A
missing file and an unparseable file return none (JSONDecodeError is
caught), and a parsed object whose menu_url field differs from the
requested URL returns none; but a parsed value that is not an object
reaches metadata.get, which raises AttributeError, an exception the
except clause (JSONDecodeError, KeyError) does not cover. -/
def load_chapter_metadata (urlHash : String → String) (store : Store)
    (menu_url : String) : Except String (Option Json) :=
  let filename := generateMetadataFilename urlHash menu_url
  match lookupFile store filename with
  | FileState.missing => Except.ok none
  | FileState.invalid => Except.ok none
  | FileState.content j =>
    match j with
    | Json.obj fields =>
      match objGet fields "menu_url" with
      | some (Json.str u) =>
        if u = menu_url then Except.ok (some j) else Except.ok none
      | _ => Except.ok none
    | _ => Except.error "AttributeError"

/-- One iteration of the get_stored_chapters loop: chapter_info is
subscripted with url and title (raising TypeError on a non object and
KeyError on a missing key) and index is read with a default of 0. -/
def storedChapterItem (item : Json) : Except String (Json × Json × Json) :=
  match item with
  | Json.obj fields =>
    match objGet fields "url" with
    | none => Except.error "KeyError"
    | some u =>
      match objGet fields "title" with
      | none => Except.error "KeyError"
      | some t => Except.ok (u, t, (objGet fields "index").getD (Json.num 0))
  | _ => Except.error "TypeError"

/-- The get_stored_chapters accumulation loop over the chapters array. -/
def storedChapterList : List Json → Except String (List (Json × Json × Json))
  | [] => Except.ok []
  | item :: rest =>
    match storedChapterItem item with
    | Except.error e => Except.error e
    | Except.ok c =>
      match storedChapterList rest with
      | Except.error e => Except.error e
      | Except.ok cs => Except.ok (c :: cs)

/-- MetadataManager.get_stored_chapters (metadata.py lines 132-150):
load, then rebuild (url, title, index) triples from the chapters array
(metadata.get with default []). -/
def get_stored_chapters (urlHash : String → String) (store : Store)
    (menu_url : String) : Except String (Option (List (Json × Json × Json))) :=
  match load_chapter_metadata urlHash store menu_url with
  | Except.error e => Except.error e
  | Except.ok none => Except.ok none
  | Except.ok (some j) =>
    let chaptersJson :=
      match j with
      | Json.obj fields => (objGet fields "chapters").getD (Json.arr [])
      | _ => Json.arr []
    match chaptersJson with
    | Json.arr items =>
      match storedChapterList items with
      | Except.error e => Except.error e
      | Except.ok cs => Except.ok (some cs)
    | _ => Except.error "TypeError"

/-- load_metadata_from_file (metadata.py lines 167-199): the defensive
variant, which checks that the parsed value is an object, that chapters
is a list, and that every chapter is an object with index, title and url
keys; every failure, including a missing or unparseable file, yields
none and no exception escapes. -/
def load_metadata_from_file (file : FileState) : Option Json :=
  match file with
  | FileState.missing => none
  | FileState.invalid => none
  | FileState.content j =>
    match j with
    | Json.obj fields =>
      match objGet fields "chapters" with
      | some (Json.arr items) =>
        if items.all (fun item =>
            match item with
            | Json.obj f =>
              (objGet f "index").isSome && (objGet f "title").isSome && (objGet f "url").isSome
            | _ => false)
        then some j else none
      | _ => none
    | _ => none

/-! ## Download orchestration (core.py)

The browser fetch and the XPath query are external capabilities.  A
chapter download consumes the list of per-page results its pages produce
(the value each _download_chapter_page call returns, some content or
none), so the network is abstracted to those inputs; whether any network
activity happens for a chapter is recorded explicitly in the outcome. -/

/-- Outcome of one download_chapter call: the returned boolean, the
content written to the chapter file (none when nothing is written), and
whether the chapter performed any network activity. -/
structure ChapterOutcome where
  ok : Bool
  written : Option String
  fetched : Bool
deriving DecidableEq

/-- The file download_chapter writes (core.py lines 626-631): title
heading then the processed content inside a div. -/
def wrapChapter (title content : String) : String :=
  "<h1>" ++ title ++ "</h1>\n<div class=\x27chapter-content\x27>\n" ++ content ++ "</div>\n"

/-- The chapter file path computed by download_chapter (core.py lines
574-585): chapters/chapters_hash/sanitized-title.html, falling back to
chapters/ when no metadata hash is available. -/
def chapterFilePath (metadataHash : Option String) (title : String) : String :=
  match metadataHash with
  | some h => "chapters/chapters_" ++ h ++ "/" ++ sanitize_filename title ++ ".html"
  | none => "chapters/" ++ sanitize_filename title ++ ".html"

/-- NovelDownloader.download_chapter (core.py lines 561-638).
existingFiles is the set of chapter files already on disk; pages is the
list of per-page results the pagination walk produced for this chapter;
proc is _process_content.  The existence check precedes every network
operation; the page results are accumulated, pages that returned none
contribute nothing, and the file is written whenever the accumulated
content is nonempty. -/
def download_chapter (existingFiles : List String) (metadataHash : Option String)
    (title : String) (pages : List (Option String)) (proc : String → String) :
    ChapterOutcome :=
  let file := chapterFilePath metadataHash title
  if file ∈ existingFiles then ⟨true, none, false⟩
  else
    let all_content := pages.filterMap id
    if all_content.isEmpty then ⟨false, none, true⟩
    else ⟨true, some (wrapChapter title (proc (String.intercalate "\n\n" all_content))), true⟩

/-- One element of the asyncio.gather result list: an exception escaped
the task, or the task returned a boolean. -/
inductive GatherResult where
  | exc : GatherResult
  | ret : Bool → GatherResult
deriving DecidableEq

/-- The statistics dictionary download_novel returns. -/
structure Stats where
  total : Nat
  downloaded : Nat
  skipped : Nat
  failed : Nat
deriving DecidableEq

/-- The counting loop of download_novel (core.py lines 938-947): total is
the chapter count; an exception or a non-True return increments failed, a
True return increments downloaded; nothing increments skipped. -/
def countStats (results : List GatherResult) : Stats :=
  results.foldl
    (fun s r =>
      match r with
      | GatherResult.exc => { s with failed := s.failed + 1 }
      | GatherResult.ret true => { s with downloaded := s.downloaded + 1 }
      | GatherResult.ret false => { s with failed := s.failed + 1 })
    ⟨results.length, 0, 0, 0⟩

/-- NovelDownloader.download_novel, main path (core.py lines 920-949):
one download_chapter task per chapter, then the counting loop over the
gathered results.  pages gives each chapter URL its per-page download
results.  Returns the statistics and the per-chapter outcomes. -/
def download_novel (existingFiles : List String) (metadataHash : Option String)
    (chapters : List (String × String)) (pages : String → List (Option String))
    (proc : String → String) : Stats × List ChapterOutcome :=
  let outcomes := chapters.map
    (fun c => download_chapter existingFiles metadataHash c.2 (pages c.1) proc)
  (countStats (outcomes.map (fun o => GatherResult.ret o.ok)), outcomes)

/-! ## Chapter-internal pagination (core.py get_chapter_pagination_links) -/

/-- NovelDownloader.get_chapter_pagination_links (core.py lines 486-559).
With no pagination XPath configured the chapter URL alone is returned
(and so do all the fetch-failure fallbacks).  Otherwise hrefs is the
attribute list the external XPath query extracted and join is the
external urljoin: starting from the chapter URL, each nonempty href
different from the chapter URL is resolved and appended unless already
present. -/
def get_chapter_pagination_links (paginationConfigured : Bool)
    (join : String → String → String) (hrefs : List String)
    (chapter_url : String) : List String :=
  if !paginationConfigured then [chapter_url]
  else
    hrefs.foldl
      (fun acc href =>
        if href ≠ "" ∧ href ≠ chapter_url then
          if join chapter_url href ∈ acc then acc else acc ++ [join chapter_url href]
        else acc)
      [chapter_url]

/-! ## Chapter-list discovery (core.py get_chapter_links)

A static site is an association list from a page URL to that page's
extracted data: the chapter entries the chapter XPath yields there (href
already resolved by the external urljoin) and the candidate next-page
URLs the pagination XPath yields there.  Fetching an unknown URL models a
fetch or extraction failure: no chapters and no next link. -/

/-- The data one chapter-list page yields to the two XPath queries. -/
structure ListPage where
  chapters : List (String × String)
  nexts : List String

/-- The external fetch-and-parse of one page. -/
def lookupPage (site : List (String × ListPage)) (u : String) : Option ListPage :=
  (site.find? (fun p => p.1 = u)).map (fun p => p.2)

/-- NovelDownloader._extract_chapters_from_page (core.py lines 326-409):
the chapter entries of the page, empty on any failure. -/
def extractChaptersFromPage (site : List (String × ListPage)) (u : String) :
    List (String × String) :=
  ((lookupPage site u).map (fun p => p.chapters)).getD []

/-- NovelDownloader._get_next_page_url (core.py lines 411-484): the first
pagination candidate of the page that differs from the current URL, none
on any failure. -/
def getNextPageUrl (site : List (String × ListPage)) (current : String) : Option String :=
  match lookupPage site current with
  | none => none
  | some page => page.nexts.find? (fun n => n ≠ current)

/-- A successful next-page lookup implies the current URL is a key of the
site map. -/
theorem mem_keys_of_getNextPageUrl {site : List (String × ListPage)} {u next : String}
    (h : getNextPageUrl site u = some next) : u ∈ site.map Prod.fst := by
  unfold getNextPageUrl at h
  cases hl : lookupPage site u with
  | none => rw [hl] at h; exact absurd h (by simp)
  | some page =>
    unfold lookupPage at hl
    cases hf : List.find? (fun p => decide (p.1 = u)) site with
    | none => rw [hf] at hl; exact absurd hl (by simp)
    | some pr =>
      have hmem : pr ∈ site := List.mem_of_find?_eq_some hf
      have hpred : pr.1 = u := by
        have := List.find?_some hf
        exact of_decide_eq_true this
      exact hpred ▸ List.mem_map_of_mem Prod.fst hmem

/-- Visiting a fresh key of the site map strictly shrinks the set of keys
not yet visited. -/
theorem card_unvisited_lt {K V : Finset String} {c : String}
    (hK : c ∈ K) (hV : c ∉ V) : (K \ insert c V).card < (K \ V).card := by
  apply Finset.card_lt_card
  rw [Finset.ssubset_iff_of_subset]
  · exact ⟨c, Finset.mem_sdiff.mpr ⟨hK, hV⟩,
      fun hc => (Finset.mem_sdiff.mp hc).2 (Finset.mem_insert_self c V)⟩
  · intro x hx
    have hx' := Finset.mem_sdiff.mp hx
    exact Finset.mem_sdiff.mpr ⟨hx'.1, fun hxV => hx'.2 (Finset.mem_insert_of_mem hxV)⟩

/-- The while loop of NovelDownloader.get_chapter_links (core.py lines
292-322).  Each iteration first applies the cycle guard (stop if the
current URL was already visited), then records the URL as visited,
appends the chapters extracted from the page, and, when a list-pagination
XPath is configured, follows the next-page URL if one is found and
differs from the current URL.  Termination: the loop recurses only when
the next-page lookup succeeded, so the current URL is a key of the finite
site map and freshly visited; the number of unvisited keys strictly
decreases. -/
def getChapterLinksLoop (site : List (String × ListPage)) (paginate : Bool)
    (visited : List String) (current : String) (acc : List (String × String)) :
    List (String × String) :=
  if hv : current ∈ visited then acc
  else
    let acc' := acc ++ extractChaptersFromPage site current
    if paginate then
      match hn : getNextPageUrl site current with
      | some next => if next ≠ current then
          getChapterLinksLoop site paginate (current :: visited) next acc'
        else acc'
      | none => acc'
    else acc'
termination_by ((site.map Prod.fst).toFinset \ visited.toFinset).card
decreasing_by
  simp only [List.toFinset_cons]
  exact card_unvisited_lt
    (List.mem_toFinset.mpr (mem_keys_of_getNextPageUrl hn))
    (fun hc => hv (List.mem_toFinset.mp hc))

/-- NovelDownloader.get_chapter_links (core.py lines 275-324): the loop
started at the menu URL with nothing visited and nothing collected. -/
def get_chapter_links (site : List (String × ListPage)) (paginate : Bool)
    (menu_url : String) : List (String × String) :=
  getChapterLinksLoop site paginate [] menu_url []

/-! ## Anti-bot wait handler and per-page download (core.py) -/

/-- config.CLOUDFLARE_MAX_WAIT_TIME (config.py line 31). -/
def CLOUDFLARE_MAX_WAIT_TIME : Nat := 120

/-- config.CLOUDFLARE_CHECK_INTERVAL (config.py line 32). -/
def CLOUDFLARE_CHECK_INTERVAL : Nat := 3

/-- The title test of _handle_cloudflare_protection (core.py line 237): a
nonempty title containing one of the known challenge phrases. -/
def blockedTitle (title : String) : Bool :=
  title ≠ "" &&
    (pyIn "请稍候" title || pyIn "Just a moment" title || pyIn "Checking your browser" title)

/-- The wait loop of NovelDownloader._handle_cloudflare_protection
(core.py lines 221-268).  titleAt gives the page title the poll at a
given waited time observes (the external fetch); while the budget is not
exhausted and the title still indicates the challenge, the loop sleeps
for the check interval and polls again.  The function returns the final
waited time; the source returns no other value — reaching the budget only
prints a warning (lines 270-273), it raises nothing and produces no
timed-out signal for the caller. -/
def handleCloudflareLoop (titleAt : Nat → String) (waited : Nat) : Nat :=
  if hw : waited < CLOUDFLARE_MAX_WAIT_TIME then
    if blockedTitle (titleAt waited) then
      handleCloudflareLoop titleAt (waited + CLOUDFLARE_CHECK_INTERVAL)
    else waited
  else waited
termination_by CLOUDFLARE_MAX_WAIT_TIME - waited
decreasing_by
  simp only [CLOUDFLARE_CHECK_INTERVAL]
  omega

/-- NovelDownloader._handle_cloudflare_protection: the loop from zero
waited time. -/
def handle_cloudflare_protection (titleAt : Nat → String) : Nat :=
  handleCloudflareLoop titleAt 0

/-- When every poll still observes a blocked title, the wait loop runs
until the whole budget is exhausted. -/
theorem handleCloudflareLoop_exhausts (titleAt : Nat → String)
    (hb : ∀ k, blockedTitle (titleAt k) = true) :
    ∀ n waited, CLOUDFLARE_MAX_WAIT_TIME - waited ≤ n →
      CLOUDFLARE_MAX_WAIT_TIME ≤ handleCloudflareLoop titleAt waited := by
  intro n
  induction n with
  | zero =>
    intro waited hle
    rw [handleCloudflareLoop]
    have : ¬ waited < CLOUDFLARE_MAX_WAIT_TIME := by omega
    simp [this]
    omega
  | succ n ih =>
    intro waited hle
    rw [handleCloudflareLoop]
    by_cases hw : waited < CLOUDFLARE_MAX_WAIT_TIME
    · simp [hw, hb]
      exact ih (waited + CLOUDFLARE_CHECK_INTERVAL)
        (by simp only [CLOUDFLARE_CHECK_INTERVAL] at *; omega)
    · simp [hw]; omega

/-- A string whose stripped form begins with an opening angle bracket,
the "looks like HTML" test of the source. -/
def startsWithAngle (s : String) : Bool :=
  match (pyStrip s).toList with
  | '<' :: _ => true
  | _ => false

/-- The hexadecimal test of the browser-session-id heuristic. -/
def isHexDigit (c : Char) : Bool :=
  ('0' ≤ c && c ≤ '9') || ('A' ≤ c && c ≤ 'F')

/-- The browser-session-id heuristic (core.py line 760): a 32 character
string of hexadecimal characters once upper-cased. -/
def isSessionId (s : String) : Bool :=
  (pyStrip s).toList.length = 32 && (pyStrip s).toList.all (fun c => isHexDigit (upperChar c))

/-- The content extraction tail of _download_chapter_page (core.py lines
772-800): query is the external XPath evaluation returning the text of
each matched node; zero matches yield none, otherwise the texts are
concatenated each followed by a newline and the result stripped. -/
def extractPageContent (query : String → List String) (htmlContent : String) :
    Option String :=
  let elems := query htmlContent
  if elems.isEmpty then none
  else some (pyStrip (elems.foldl (fun acc t => acc ++ t ++ "\n") ""))

/-- NovelDownloader._download_chapter_page (core.py lines 698-812) after
the Cloudflare wait: html1 is the page source read at line 729 and html2
the one re-read during the session-id retry at line 764.  Every check of
the source is translated in order: empty or short content, error-page
keywords, the non-HTML and session-id heuristics, then the XPath
extraction.  All failures return none; the function raises nothing. -/
def download_chapter_page (query : String → List String) (html1 html2 : String) :
    Option String :=
  if html1 = "" || html1.length < 100 then none
  else if pyIn "page not found" (lowerStr html1) || pyIn "404" html1 then none
  else if pyIn "access denied" (lowerStr html1) || pyIn "forbidden" (lowerStr html1) then none
  else if pyIn "timeout" (lowerStr html1) || pyIn "timed out" (lowerStr html1) then none
  else if !startsWithAngle html1 then
    if isSessionId html1 then
      if !startsWithAngle html2 then none else extractPageContent query html2
    else none
  else extractPageContent query html1

/-! ## Claim theorems -/

/-- Claim C1.  The claim states that a chapter whose output file already
exists counts toward skipped and that a second unchanged run yields
downloaded zero and skipped total.  Evaluating the embedded code at the
failing input — one chapter whose file is already on disk — shows the
code counts it as downloaded: download_chapter returns True for an
existing file (core.py lines 588-590) and the counting loop of
download_novel (lines 940-947) turns every True into downloaded, never
incrementing skipped, so the run returns downloaded one and skipped zero.
The no-network part of the claim does hold: the outcome records that the
chapter fetched nothing and wrote nothing. -/
theorem claim1_existing_file_counted_as_downloaded :
    download_novel ["chapters/chapters_abc123/T.html"] (some "abc123") [("http://u", "T")]
        (fun _ => [some "body"]) id
      = (⟨1, 1, 0, 0⟩, [⟨true, none, false⟩]) := by decide

/-- Claim C2.  The claim states that a chapter with several pages is
marked failed, with no partial file written, as soon as one page fails.
Evaluating the embedded download_chapter at the failing input — two
pages, the first succeeding and the second failing — shows the code
returns True and writes a file containing only the first page: the page
loop (core.py lines 604-612) merely logs the failure, and the chapter
fails (lines 614-617) only when every page failed, which the second
conjunct confirms. -/
theorem claim2_partial_content_written :
    download_chapter [] none "T" [some "P1", none] id
      = ⟨true, some "<h1>T</h1>\n<div class=\x27chapter-content\x27>\nP1</div>\n", true⟩ ∧
    download_chapter [] none "T" [none, none] id = ⟨false, none, true⟩ := by decide

/-- The counting loop preserves the statistics identity: the total field
is left unchanged and each processed result increments exactly one of the
downloaded, skipped, failed fields. -/
theorem countStats_foldl_invariant (l : List GatherResult) :
    ∀ s : Stats,
      (l.foldl
        (fun s r =>
          match r with
          | GatherResult.exc => { s with failed := s.failed + 1 }
          | GatherResult.ret true => { s with downloaded := s.downloaded + 1 }
          | GatherResult.ret false => { s with failed := s.failed + 1 }) s).total = s.total ∧
      (l.foldl
        (fun s r =>
          match r with
          | GatherResult.exc => { s with failed := s.failed + 1 }
          | GatherResult.ret true => { s with downloaded := s.downloaded + 1 }
          | GatherResult.ret false => { s with failed := s.failed + 1 }) s).downloaded +
      (l.foldl
        (fun s r =>
          match r with
          | GatherResult.exc => { s with failed := s.failed + 1 }
          | GatherResult.ret true => { s with downloaded := s.downloaded + 1 }
          | GatherResult.ret false => { s with failed := s.failed + 1 }) s).skipped +
      (l.foldl
        (fun s r =>
          match r with
          | GatherResult.exc => { s with failed := s.failed + 1 }
          | GatherResult.ret true => { s with downloaded := s.downloaded + 1 }
          | GatherResult.ret false => { s with failed := s.failed + 1 }) s).failed
        = s.downloaded + s.skipped + s.failed + l.length := by
  induction l with
  | nil => intro s; simp
  | cons r rest ih =>
    intro s
    cases r with
    | exc =>
      simp only [List.foldl_cons, List.length_cons]
      refine ⟨(ih _).1, ?_⟩
      rw [(ih _).2]
      simp; omega
    | ret b =>
      cases b with
      | true =>
        simp only [List.foldl_cons, List.length_cons]
        refine ⟨(ih _).1, ?_⟩
        rw [(ih _).2]
        simp; omega
      | false =>
        simp only [List.foldl_cons, List.length_cons]
        refine ⟨(ih _).1, ?_⟩
        rw [(ih _).2]
        simp; omega

/-- Claim C3.  In every run of the embedded download_novel the statistics
are exact: total equals the number of chapters, and equals downloaded
plus skipped plus failed, each gathered result incrementing exactly one
of the three counters. -/
theorem claim3_stats_exact (existingFiles : List String) (metadataHash : Option String)
    (chapters : List (String × String)) (pages : String → List (Option String))
    (proc : String → String) :
    (download_novel existingFiles metadataHash chapters pages proc).1.total
        = chapters.length ∧
    (download_novel existingFiles metadataHash chapters pages proc).1.total
        = (download_novel existingFiles metadataHash chapters pages proc).1.downloaded +
          (download_novel existingFiles metadataHash chapters pages proc).1.skipped +
          (download_novel existingFiles metadataHash chapters pages proc).1.failed := by
  unfold download_novel countStats
  simp only [List.length_map]
  constructor
  · exact (countStats_foldl_invariant _ _).1
  · rw [(countStats_foldl_invariant _ _).1, (countStats_foldl_invariant _ _).2]
    simp only [List.length_map]
    omega

/-- The two-page chapter list of the C4 scenario: page one yields A and B
and points to page two, page two yields C and D and points back to page
one. -/
def siteCycle : List (String × ListPage) :=
  [("http://site/list",
    ⟨[("http://site/a", "A"), ("http://site/b", "B")], ["http://site/list2"]⟩),
   ("http://site/list2",
    ⟨[("http://site/c", "C"), ("http://site/d", "D")], ["http://site/list"]⟩)]

/-- Claim C4.  On the misconfigured two-page cycle, chapter-list
discovery returns exactly A, B, C, D in document order and stops: the
third iteration hits the cycle guard on revisiting page one.  Discovery
terminates on every input by construction: the embedded loop is
well-founded in the number of unvisited site URLs. -/
theorem claim4_cycle_guard_scenario :
    get_chapter_links siteCycle true "http://site/list"
      = [("http://site/a", "A"), ("http://site/b", "B"),
         ("http://site/c", "C"), ("http://site/d", "D")] := by
  have h1 : getNextPageUrl siteCycle "http://site/list" = some "http://site/list2" := by
    decide
  have h2 : getNextPageUrl siteCycle "http://site/list2" = some "http://site/list" := by
    decide
  have e1 : extractChaptersFromPage siteCycle "http://site/list"
      = [("http://site/a", "A"), ("http://site/b", "B")] := by decide
  have e2 : extractChaptersFromPage siteCycle "http://site/list2"
      = [("http://site/c", "C"), ("http://site/d", "D")] := by decide
  rw [get_chapter_links, getChapterLinksLoop.eq_def]
  simp +decide [e1]
  split
  · rename_i next hn
    rw [h1] at hn
    injection hn with hn
    subst hn
    simp +decide
    rw [getChapterLinksLoop.eq_def]
    simp +decide [e2]
    split
    · rename_i next hn
      rw [h2] at hn
      injection hn with hn
      subst hn
      rw [getChapterLinksLoop.eq_def]
      simp +decide
    · rfl
  · rename_i hn
    rw [h1] at hn
    exact absurd hn (by simp)

/-- A Cloudflare interstitial page: long enough to pass the length check,
valid markup, free of the error keywords, with the challenge title. -/
def cfPage : String :=
  "<html><head><title>Just a moment</title></head><body><p>Verifying your connection before proceeding. This check is automatic and the page will reload once it completes.</p></body></html>"

set_option maxRecDepth 8192 in
/-- Claim C5, counterexample.  The claim states that when the anti-bot
wait exhausts its budget the page contributes no content and the chapter
fails.  The embedded handler indeed exhausts the whole budget on a page
that stays blocked — but it returns no timed-out signal, and the per-page
download then processes the still-blocked markup like any other page: on
a blocked interstitial that the content selector happens to match, the
page contributes the interstitial text instead of no content. -/
theorem claim5_counterexample :
    CLOUDFLARE_MAX_WAIT_TIME ≤ handle_cloudflare_protection (fun _ => "Just a moment") ∧
    download_chapter_page (fun _ => ["Just a moment"]) cfPage cfPage
      = some "Just a moment" := by
  have hb : blockedTitle "Just a moment" = true := by decide
  exact ⟨handleCloudflareLoop_exhausts (fun _ => "Just a moment") (fun _ => hb)
      CLOUDFLARE_MAX_WAIT_TIME 0 (by decide),
    by decide⟩

/-- Claim C5 as amended.  When every poll observes a blocked title the
wait loop exhausts its whole budget and returns normally (no exception,
no signal); the per-page download then processes the final markup, and
whenever the content selector matches nothing in it the page yields no
content; a chapter whose only page yields no content is marked failed
with nothing written. -/
theorem claim5_timeout_page_failure (titleAt : Nat → String)
    (query : String → List String) (html1 html2 : String)
    (existingFiles : List String) (metadataHash : Option String)
    (title : String) (proc : String → String)
    (hb : ∀ k, blockedTitle (titleAt k) = true)
    (hq1 : query html1 = []) (hq2 : query html2 = [])
    (hfile : chapterFilePath metadataHash title ∉ existingFiles) :
    CLOUDFLARE_MAX_WAIT_TIME ≤ handle_cloudflare_protection titleAt ∧
    download_chapter_page query html1 html2 = none ∧
    download_chapter existingFiles metadataHash title
        [download_chapter_page query html1 html2] proc = ⟨false, none, true⟩ := by
  have hpage : download_chapter_page query html1 html2 = none := by
    unfold download_chapter_page extractPageContent
    rw [hq1, hq2]
    simp
  refine ⟨handleCloudflareLoop_exhausts titleAt hb CLOUDFLARE_MAX_WAIT_TIME 0 (by decide),
    hpage, ?_⟩
  rw [hpage]
  unfold download_chapter
  simp [hfile, List.filterMap]

/-- Witness for the amended C5 theorem at a concrete blocked trace and an
empty selector result. -/
theorem claim5_timeout_page_failure_witness :
    CLOUDFLARE_MAX_WAIT_TIME ≤ handle_cloudflare_protection (fun _ => "请稍候") ∧
    download_chapter_page (fun _ => []) "" "" = none ∧
    download_chapter [] none "W" [download_chapter_page (fun _ => []) "" ""] id
      = ⟨false, none, true⟩ := by
  have hb : blockedTitle "请稍候" = true := by decide
  exact claim5_timeout_page_failure (fun _ => "请稍候") (fun _ => []) "" "" [] none "W" id
    (fun _ => hb) rfl rfl (by decide)

/-- Claim C6.  The post-processing composition on the concrete example:
the regex filter extracts the two matches of Chapter \d+ joined with a
newline, discarding the surrounding text; the replacement pair applied
afterwards rewrites both occurrences; and _process_content chains the two
in that order. -/
theorem claim6_postprocessing_composition :
    process_content_with_regex findallChapter (some "Chapter \\d+")
        "AAA Chapter 1 BBB Chapter 2 CCC" = "Chapter 1\nChapter 2" ∧
    apply_string_replacements [("Chapter", "Ch.")] "Chapter 1\nChapter 2"
        = "Ch. 1\nCh. 2" ∧
    processContent (some "Chapter \\d+") findallChapter [("Chapter", "Ch.")]
        "AAA Chapter 1 BBB Chapter 2 CCC" = "Ch. 1\nCh. 2" :=
  ⟨by decide, by decide, by decide⟩

/-- Writing a file and reading the same name back yields the written
state. -/
theorem lookupFile_overwrite (store : Store) (name : String) (st : FileState) :
    lookupFile ((name, st) :: store) name = st := by
  unfold lookupFile
  rw [List.find?_cons_of_pos]
  · rfl
  · simp

/-- Decoding one saved chapter record restores its url, title and
one-based index. -/
theorem storedChapterItem_chapterJson (i : Nat) (c : String × String) :
    storedChapterItem (chapterJson i c)
      = Except.ok (Json.str c.1, Json.str c.2, Json.num (i + 1)) := rfl

/-- Decoding the saved chapters array restores every record in order. -/
theorem storedChapterList_enumFrom (l : List (String × String)) :
    ∀ i, storedChapterList ((List.enumFrom i l).map (fun p => chapterJson p.1 p.2))
      = Except.ok ((List.enumFrom i l).map
          (fun p => (Json.str p.2.1, Json.str p.2.2, Json.num (p.1 + 1)))) := by
  induction l with
  | nil => intro i; rfl
  | cons c tl ih =>
    intro i
    simp only [List.enumFrom, List.map_cons, storedChapterList,
      storedChapterItem_chapterJson, ih (i + 1)]

/-- Loading right after saving returns the saved record: the file name is
derived from the same URL, and the stored menu_url field matches. -/
theorem load_after_save (urlHash : String → String) (store : Store)
    (menu_url : String) (chapters : List (String × String))
    (cx ox : String) (px lx rx : Option String)
    (reps : List (String × String)) (ts : String) :
    load_chapter_metadata urlHash
        (save_chapter_metadata urlHash store menu_url chapters cx ox px lx rx reps ts).2
        menu_url
      = Except.ok (some (savedMetadataJson menu_url chapters cx ox px lx rx reps ts)) := by
  unfold save_chapter_metadata load_chapter_metadata
  simp only []
  rw [lookupFile_overwrite]
  show (match savedMetadataJson menu_url chapters cx ox px lx rx reps ts with
    | Json.obj fields =>
      match objGet fields "menu_url" with
      | some (Json.str u) =>
        if u = menu_url then
          Except.ok (some (savedMetadataJson menu_url chapters cx ox px lx rx reps ts))
        else Except.ok none
      | _ => Except.ok none
    | _ => Except.error "AttributeError") = _
  rw [savedMetadataJson]
  simp +decide [objGet, List.find?]

/-- Claim C7.  Saving a chapter list and loading it back by the same URL
restores the chapters in order with one-based ordinals assigned by
position, and the derived source identifier (the metadata file name) is a
function of the list URL alone — the same for any chapters, selectors and
timestamp. -/
theorem claim7_metadata_roundtrip (urlHash : String → String) (store : Store)
    (menu_url : String) (chapters : List (String × String))
    (cx ox : String) (px lx rx : Option String)
    (reps : List (String × String)) (ts : String) :
    get_stored_chapters urlHash
        (save_chapter_metadata urlHash store menu_url chapters cx ox px lx rx reps ts).2
        menu_url
      = Except.ok (some (chapters.enum.map
          (fun p => (Json.str p.2.1, Json.str p.2.2, Json.num (p.1 + 1))))) ∧
    (save_chapter_metadata urlHash store menu_url chapters cx ox px lx rx reps ts).1
      = generateMetadataFilename urlHash menu_url := by
  refine ⟨?_, rfl⟩
  unfold get_stored_chapters
  rw [load_after_save]
  show (let chaptersJson :=
      match savedMetadataJson menu_url chapters cx ox px lx rx reps ts with
      | Json.obj fields => (objGet fields "chapters").getD (Json.arr [])
      | _ => Json.arr []
    match chaptersJson with
    | Json.arr items =>
      match storedChapterList items with
      | Except.error e => Except.error e
      | Except.ok cs => Except.ok (some cs)
    | _ => Except.error "TypeError") = _
  rw [savedMetadataJson]
  simp +decide only [objGet, List.find?]
  show (match storedChapterList (chapters.enum.map (fun p => chapterJson p.1 p.2)) with
    | Except.error e => Except.error e
    | Except.ok cs => Except.ok (some cs)) = _
  rw [show chapters.enum = List.enumFrom 0 chapters from rfl, storedChapterList_enumFrom]

/-- Claim C8.  The claim states that loading by source identifier never
propagates an exception for any file contents.  Evaluating the embedded
load_chapter_metadata at the failing input — a metadata file whose JSON
parses to a non-object value, here the empty array — shows the uncaught
AttributeError the attribute access metadata.get raises there, while the
repository's own defensive sibling load_metadata_from_file returns none
on the same contents. -/
theorem claim8_nonobject_metadata_raises :
    load_chapter_metadata (fun _ => "deadbeef")
        [("chapters_deadbeef.json", FileState.content (Json.arr []))] "http://u"
      = Except.error "AttributeError" ∧
    load_metadata_from_file (FileState.content (Json.arr [])) = none :=
  ⟨rfl, rfl⟩

/-- The pagination accumulation loop preserves nonemptiness, the head and
the absence of duplicates. -/
theorem pagFold_props (join : String → String → String) (u : String) :
    ∀ (hrefs : List String) (acc : List String), acc ≠ [] → acc.Nodup →
      (hrefs.foldl
        (fun acc href =>
          if href ≠ "" ∧ href ≠ u then
            if join u href ∈ acc then acc else acc ++ [join u href]
          else acc) acc) ≠ [] ∧
      (hrefs.foldl
        (fun acc href =>
          if href ≠ "" ∧ href ≠ u then
            if join u href ∈ acc then acc else acc ++ [join u href]
          else acc) acc).head? = acc.head? ∧
      (hrefs.foldl
        (fun acc href =>
          if href ≠ "" ∧ href ≠ u then
            if join u href ∈ acc then acc else acc ++ [join u href]
          else acc) acc).Nodup := by
  intro hrefs
  induction hrefs with
  | nil => intro acc h1 h2; exact ⟨h1, rfl, h2⟩
  | cons href rest ih =>
    intro acc h1 h2
    simp only [List.foldl_cons]
    by_cases hc : href ≠ "" ∧ href ≠ u
    · rw [if_pos hc]
      by_cases hm : join u href ∈ acc
      · rw [if_pos hm]; exact ih acc h1 h2
      · rw [if_neg hm]
        have h1' : acc ++ [join u href] ≠ [] := by simp
        have h2' : (acc ++ [join u href]).Nodup := by
          rw [List.nodup_append]
          refine ⟨h2, List.nodup_singleton _, ?_⟩
          intro x hx hx'
          simp only [List.mem_singleton] at hx'
          exact hm (hx' ▸ hx)
        have h := ih (acc ++ [join u href]) h1' h2'
        refine ⟨h.1, ?_, h.2.2⟩
        rw [h.2.1]
        cases acc with
        | nil => exact absurd rfl h1
        | cons a t => rfl
    · rw [if_neg hc]; exact ih acc h1 h2

/-- Claim C9.  Chapter-page discovery returns the chapter URL as its
first element; with no pagination selector configured it returns exactly
the single-element list; and the returned list never contains duplicate
URLs, for any extracted hrefs and any URL resolver. -/
theorem claim9_chapter_pages (paginate : Bool) (join : String → String → String)
    (hrefs : List String) (chapter_url : String) :
    get_chapter_pagination_links false join hrefs chapter_url = [chapter_url] ∧
    (get_chapter_pagination_links paginate join hrefs chapter_url).head?
      = some chapter_url ∧
    (get_chapter_pagination_links paginate join hrefs chapter_url).Nodup := by
  refine ⟨rfl, ?_⟩
  cases paginate with
  | false => exact ⟨rfl, List.nodup_singleton _⟩
  | true =>
    have h := pagFold_props join chapter_url hrefs [chapter_url]
      (by simp) (List.nodup_singleton _)
    exact ⟨h.2.1, h.2.2⟩

/-- Claim C10.  When the metadata file found under the hash of the
requested menu URL stores a different menu_url, load_chapter_metadata
returns none instead of the mismatched record, and get_stored_chapters
consequently serves no chapters for the wrong list URL. -/
theorem claim10_mismatched_url_not_served (urlHash : String → String) (store : Store)
    (menu_url stored_url : String) (fields : List (String × Json))
    (hfile : lookupFile store (generateMetadataFilename urlHash menu_url)
      = FileState.content (Json.obj fields))
    (hfield : objGet fields "menu_url" = some (Json.str stored_url))
    (hne : stored_url ≠ menu_url) :
    load_chapter_metadata urlHash store menu_url = Except.ok none ∧
    get_stored_chapters urlHash store menu_url = Except.ok none := by
  have hload : load_chapter_metadata urlHash store menu_url = Except.ok none := by
    unfold load_chapter_metadata
    simp only []
    rw [hfile]
    simp only [hfield]
    rw [if_neg hne]
  refine ⟨hload, ?_⟩
  unfold get_stored_chapters
  rw [hload]

/-- Witness for the C10 theorem at a concrete mismatched record. -/
theorem claim10_mismatched_url_witness :
    load_chapter_metadata (fun _ => "aaaa1111")
        [("chapters_aaaa1111.json",
          FileState.content (Json.obj [("menu_url", Json.str "http://other")]))]
        "http://u" = Except.ok none ∧
    get_stored_chapters (fun _ => "aaaa1111")
        [("chapters_aaaa1111.json",
          FileState.content (Json.obj [("menu_url", Json.str "http://other")]))]
        "http://u" = Except.ok none :=
  claim10_mismatched_url_not_served (fun _ => "aaaa1111")
    [("chapters_aaaa1111.json",
      FileState.content (Json.obj [("menu_url", Json.str "http://other")]))]
    "http://u" "http://other" [("menu_url", Json.str "http://other")]
    rfl rfl (by decide)

end NovelDL
